import Mathlib

/-!
Shallow embedding of `slimta/edge/wsgi.py` (python-slimta WSGI edge).

The module implements an HTTP edge that accepts `message/rfc822` submissions,
builds a mail envelope from request headers and body, hands it to a queue,
and translates the queue's per-recipient outcome into an HTTP response.

Python byte strings are modelled as `List Nat`, text strings as `String`.
The WSGI `environ` dictionary is modelled as a structure holding the keys
the module reads; the configurable sender/recipient/ehlo header names are
abstracted away by storing the corresponding header values directly.
External collaborators (queue handoff, the envelope body parser, the
reverse-DNS lookup result) are modelled as oracles passed to the handler.
-/

set_option autoImplicit false

namespace SlimtaWsgi

/-- Python `\s` whitespace characters (ASCII range), as used by `re` and
`str.strip` on the inputs this module handles. -/
def isPySpace (c : Char) : Bool :=
  c = ' ' || c = '\t' || c = '\n' || c = '\r' || c = '\x0b' || c = '\x0c'

/-- Value of a standard base64 alphabet character, per Python `base64.b64decode`. -/
def b64CharVal (c : Char) : Option Nat :=
  if 'A' ≤ c ∧ c ≤ 'Z' then some (c.toNat - 'A'.toNat)
  else if 'a' ≤ c ∧ c ≤ 'z' then some (c.toNat - 'a'.toNat + 26)
  else if '0' ≤ c ∧ c ≤ '9' then some (c.toNat - '0'.toNat + 52)
  else if c = '+' then some 62
  else if c = '/' then some 63
  else none

/-- Decode a complete base64 quad into three bytes. -/
def b64Quad (a b c d : Nat) : List Nat :=
  [a * 4 + b / 16, (b % 16) * 16 + c / 4, (c % 4) * 64 + d]

/-- Worker for `b64decode`: consumes characters left to right, accumulating a
partial quad; padding `=` after two or three data characters finishes the
decode early (as CPython `binascii.a2b_base64` does); characters outside the
alphabet are discarded; leftover data characters at the end are an error
(`binascii.Error: Incorrect padding`). -/
def b64decodeAux : List Char → List Nat → List Nat → Option (List Nat)
  | [], quad, acc =>
    match quad with
    | [] => some acc
    | _ => none
  | c :: rest, quad, acc =>
    match b64CharVal c with
    | some v =>
      match quad with
      | [a, b, c2] => b64decodeAux rest [] (acc ++ b64Quad a b c2 v)
      | _ => b64decodeAux rest (quad ++ [v]) acc
    | none =>
      if c = '=' then
        match quad with
        | [a, b] =>
          let rest2 := rest.dropWhile (fun c2 => (b64CharVal c2).isNone && c2 ≠ '=')
          match rest2.head? with
          | some '=' => some (acc ++ [a * 4 + b / 16])
          | _ => none
        | [a, b, c2] => some (acc ++ [a * 4 + b / 16, (b % 16) * 16 + c2 / 4])
        | _ => b64decodeAux rest quad acc
      else
        b64decodeAux rest quad acc

/-- Model of Python `base64.b64decode` (default `validate := False`):
returns the decoded bytes, or `none` where CPython raises `binascii.Error`. -/
def b64decode (s : String) : Option (List Nat) :=
  b64decodeAux s.data [] []

/-- Worker for `splitPattern`: models `re.split` with pattern `\s*[,;]\s*`.
`skip` is true just after a delimiter, while the match's trailing `\s*` is
still being consumed; `cur` is the current segment and `ws` the pending
whitespace run that joins the segment only if followed by a non-delimiter. -/
def splitAux : List Char → Bool → List Char → List Char → List String → List String
  | [], skip, cur, ws, acc =>
    if skip then acc ++ [""] else acc ++ [String.mk (cur ++ ws)]
  | c :: rest, skip, cur, ws, acc =>
    if c = ',' ∨ c = ';' then
      let seg := if skip then "" else String.mk cur
      splitAux rest true [] [] (acc ++ [seg])
    else if isPySpace c then
      if skip then splitAux rest true [] [] acc
      else splitAux rest false cur (ws ++ [c]) acc
    else
      if skip then splitAux rest false [c] [] acc
      else splitAux rest false (cur ++ ws ++ [c]) [] acc

/-- Model of `WsgiEdge.split_pattern`: `re.compile(r'\s*[,;]\s*').split`. -/
def splitPattern (s : String) : List String :=
  splitAux s.data false [] [] []

/-- Helper for `pyInt`: no two adjacent underscores in the digit run. -/
def noDoubleUnderscore : List Char → Bool
  | [] => true
  | [_] => true
  | a :: b :: rest => !(a == '_' && b == '_') && noDoubleUnderscore (b :: rest)

/-- Model of Python `int(str)`: optional surrounding whitespace, optional
sign, decimal digits with single underscores allowed between digits;
`none` where CPython raises `ValueError`. -/
def pyInt (s : String) : Option Int :=
  let cs := (s.data.dropWhile isPySpace).reverse.dropWhile isPySpace |>.reverse
  let core : List Char → Option (List Char) := fun ds =>
    match ds with
    | [] => none
    | _ =>
      let ok := ds.head?.all Char.isDigit && ds.getLast?.all Char.isDigit &&
        noDoubleUnderscore ds &&
        ds.all (fun c => c.isDigit || c = '_')
      if ok then some (ds.filter Char.isDigit) else none
  let signed : Option (Bool × List Char) :=
    match cs with
    | '-' :: rest => some (true, rest)
    | '+' :: rest => some (false, rest)
    | rest => some (false, rest)
  match signed with
  | some (neg, ds) =>
    match core ds with
    | some digits =>
      let n : Nat := digits.foldl (fun a c => a * 10 + (c.toNat - '0'.toNat)) 0
      some (if neg then -(n : Int) else (n : Int))
    | none => none
  | none => none

/-- Model of `environ['wsgi.input'].read(n)`: a non-negative count reads up
to `n` bytes from the stream; a negative count reads the whole stream. -/
def readInput (input : List Nat) (n : Int) : List Nat :=
  if n < 0 then input else input.take n.toNat

/-- Model of Python `str.upper` for the ASCII strings this module handles:
uppercase every character. -/
def pyUpper (s : String) : String :=
  String.mk (s.data.map Char.toUpper)

/-- Model of Python `str.startswith` for the ASCII prefixes used here. -/
def pyStartsWith (s pre : String) : Bool :=
  pre.data.isPrefixOf s.data

/-- ASCII bytes of a string, for stating byte-level results readably. -/
def asciiBytes (s : String) : List Nat :=
  s.data.map Char.toNat

/-- Modelled from the spec: the protocol reply carried by delivery outcomes
(`slimta.smtp.reply.Reply`, not under `src/`): "a typed queue/relay error
carrying a protocol reply code+message". A plain code/message record. -/
structure Reply where
  code : String
  message : String
deriving DecidableEq, Repr

/-- Escaping applied by `wsgiref.headers` to a quoted parameter value:
backslashes and double quotes are backslash-escaped. -/
def quoteParam (s : String) : String :=
  String.mk (s.data.foldr
    (fun c acc =>
      if c = '\\' then '\\' :: '\\' :: acc
      else if c = '"' then '\\' :: '"' :: acc
      else c :: acc) [])

/-- The diagnostic header appended by `_build_http_response`:
`Headers(headers).add_header('X-Smtp-Reply', code, message=smtp_reply.message)`
yields the pair `('X-Smtp-Reply', '<code>; message="<message>"')`. -/
def xSmtpReplyHeader (smtpReply : Reply) : String × String :=
  ("X-Smtp-Reply", smtpReply.code ++ "; message=\"" ++ quoteParam smtpReply.message ++ "\"")

/-- Embeds `WSGIResponse`: the exception type carrying a terminal response
(status line, headers, body data). -/
structure WSGIResponse where
  status : String
  headers : List (String × String)
  data : List String
deriving DecidableEq, Repr

/-- Embeds `_build_http_response(smtp_reply)`: chooses the HTTP status from the SMTP
reply code and attaches the `X-Smtp-Reply` diagnostic header. -/
def buildHttpResponse (smtpReply : Reply) : WSGIResponse :=
  let headers := [xSmtpReplyHeader smtpReply]
  if pyStartsWith smtpReply.code "2" then
    { status := "200 OK", headers := headers, data := [] }
  else if pyStartsWith smtpReply.code "4" then
    { status := "503 Service Unavailable", headers := headers, data := [] }
  else if smtpReply.code = "535" then
    { status := "401 Unauthorized", headers := headers, data := [] }
  else
    { status := "500 Internal Server Error", headers := headers, data := [] }

/-- A Python exception escaping the handler's `try` block: either the
structured `WSGIResponse` control-flow exception, or any other exception,
carried with its textual description `str(exc)`. -/
inductive PyExc where
  | wsgiResponse (res : WSGIResponse)
  | other (desc : String)
deriving DecidableEq, Repr

/-- Modelled from the spec: the per-recipient delivery outcome returned by
the queue handoff (`QueueError` from `slimta.queue`, `RelayError` from
`slimta.relay`, not under `src/`): "one of `Accepted`, `QueueFailure(reason)`,
`RelayFailure(wireReply)`", three disjoint cases. -/
inductive DeliveryOutcome where
  | accepted
  | queueFailure
  | relayFailure (reply : Reply)
deriving DecidableEq, Repr

/-- The client-metadata dictionary `env.client` filled by
`_add_envelope_extras`; every field starts absent. -/
structure Client where
  ip : Option String := none
  host : Option String := none
  name : Option String := none
  protocol : Option String := none
deriving DecidableEq, Repr

/-- Modelled from the spec: `slimta.envelope.Envelope` (not under `src/`):
"sender: byte string; recipients: ordered sequence of byte strings; body: raw
message bytes; client: mapping". `body` records the raw bytes handed to the
external parser by `env.parse(data)`. -/
structure Envelope where
  sender : List Nat
  recipients : List (List Nat)
  client : Client := {}
  body : Option (List Nat) := none
deriving DecidableEq, Repr

/-- The WSGI `environ` entries read by the module. Optional fields model
keys that may be absent (`environ.get`); `requestMethod` models the
mandatory `REQUEST_METHOD`. The sender, recipient and ehlo fields hold the
values of the configured headers. `input` is the request body stream. -/
structure Environ where
  pathInfo : Option String := none
  requestMethod : String := "POST"
  contentType : Option String := none
  contentLength : Option String := none
  senderHeader : Option String := none
  rcptHeader : Option String := none
  ehloHeader : Option String := none
  remoteAddr : Option String := none
  urlScheme : Option String := none
  input : List Nat := []

/-- Modelled from the spec: the external collaborators of the edge: a queue
with a blocking `handoff(envelope) -> ordered sequence of (recipient,
outcome)` (from `slimta.edge.Edge`, not under `src/`), the envelope body
parser `parse(rawBytes) -> structured message | fault`, and the value of
`environ['slimta.reverse_address']` at the time extras are attached (set by
the concurrent PTR-lookup task if it completed in time). -/
structure Oracles where
  parseBody : List Nat → Except String Unit
  handoff : Envelope → List (List Nat × DeliveryOutcome)
  reverseAddress : Option String := none

/-- Condition of `_validate_request`: check the optional URI pattern, the request method
(uppercased) against `POST`, and the content type (absent defaults to
`message/rfc822`). Failures raise a `WSGIResponse`. -/
def matchesUri : Option (String → Bool) → Environ → Bool
  | none, _ => true
  | some p, e => p (e.pathInfo.getD "")

/-- Embeds `_validate_request` as an `Except` computation. -/
def validateRequest (uriPattern : Option (String → Bool)) (e : Environ) :
    Except PyExc Unit :=
  if matchesUri uriPattern e = false then
    Except.error (PyExc.wsgiResponse { status := "404 Not Found", headers := [], data := [] })
  else if pyUpper e.requestMethod ≠ "POST" then
    Except.error (PyExc.wsgiResponse
      { status := "405 Method Not Allowed", headers := [("Allow", "POST")], data := [] })
  else if e.contentType.getD "message/rfc822" ≠ "message/rfc822" then
    Except.error (PyExc.wsgiResponse
      { status := "415 Unsupported Media Type", headers := [], data := [] })
  else
    Except.ok ()

/-- Embeds `_get_sender`: `b64decode(environ.get(self.sender_header, ''))`; a decode
failure raises `binascii.Error`, a generic exception. -/
def getSender (e : Environ) : Except PyExc (List Nat) :=
  match b64decode (e.senderHeader.getD "") with
  | some bs => Except.ok bs
  | none => Except.error (PyExc.other "Invalid base64-encoded string")

/-- Decode each split segment in order; the first failing segment raises,
as the list comprehension in `_get_recipients` does. -/
def decodeAll : List String → Except PyExc (List (List Nat))
  | [] => Except.ok []
  | s :: rest =>
    match b64decode s with
    | none => Except.error (PyExc.other ("Invalid base64-encoded string: " ++ s))
    | some bs =>
      match decodeAll rest with
      | Except.error ex => Except.error ex
      | Except.ok bss => Except.ok (bs :: bss)

/-- Embeds `_get_recipients`: a missing or empty (falsy) header yields `[]`;
otherwise split on `\s*[,;]\s*` and base64-decode each segment. -/
def getRecipients (e : Environ) : Except PyExc (List (List Nat)) :=
  match e.rcptHeader with
  | none => Except.ok []
  | some raw =>
    if raw = "" then Except.ok []
    else decodeAll (splitPattern raw)

/-- Embeds `_get_ehlo`: the ehlo header if present, else `'[<REMOTE_ADDR or "unknown">]'`. -/
def getEhlo (e : Environ) : String :=
  match e.ehloHeader with
  | some v => v
  | none => "[" ++ e.remoteAddr.getD "unknown" ++ "]"

/-- Embeds `int(environ.get('CONTENT_LENGTH', 0))`: an absent header gives `int(0) = 0`;
a present header is parsed with Python `int`, raising `ValueError` (a generic
exception) when non-numeric. -/
def contentLengthValue (e : Environ) : Except PyExc Int :=
  match e.contentLength with
  | none => Except.ok 0
  | some s =>
    match pyInt s with
    | some n => Except.ok n
    | none =>
      Except.error (PyExc.other ("invalid literal for int() with base 10: '" ++ s ++ "'"))

/-- Embeds `_get_envelope`: extract sender and recipients, construct the envelope,
read `Content-Length` bytes of body and hand them to the external parser.
Any failure propagates as the corresponding exception. -/
def getEnvelope (parseBody : List Nat → Except String Unit) (e : Environ) :
    Except PyExc Envelope :=
  match getSender e with
  | Except.error ex => Except.error ex
  | Except.ok sender =>
    match getRecipients e with
    | Except.error ex => Except.error ex
    | Except.ok recipients =>
      match contentLengthValue e with
      | Except.error ex => Except.error ex
      | Except.ok n =>
        let data := readInput e.input n
        match parseBody data with
        | Except.ok _ => Except.ok { sender := sender, recipients := recipients, body := some data }
        | Except.error m => Except.error (PyExc.other m)

/-- Embeds `_add_envelope_extras`: fill `env.client` with ip, reverse-DNS host (if
the lookup completed), ehlo name and uppercased protocol scheme. -/
def addEnvelopeExtras (reverseAddress : Option String) (e : Environ) (env : Envelope) :
    Envelope :=
  { env with client :=
    { ip := some (e.remoteAddr.getD "unknown")
      host := reverseAddress
      name := some (getEhlo e)
      protocol := some (pyUpper (e.urlScheme.getD "http")) } }

/-- Embeds `_enqueue_envelope`: inspect only `results[0][1]`. An empty result list
raises `IndexError` (a generic exception); a `QueueError` first outcome and
an accepted first outcome raise fixed replies through `_build_http_response`;
a `RelayError` first outcome raises the relay's own reply through it. -/
def enqueueEnvelope (results : List (List Nat × DeliveryOutcome)) : Except PyExc Unit :=
  match results with
  | [] => Except.error (PyExc.other "list index out of range")
  | (_, outcome) :: _ =>
    match outcome with
    | DeliveryOutcome.queueFailure =>
      Except.error (PyExc.wsgiResponse
        (buildHttpResponse { code := "550", message := "5.6.0 Error queuing message" }))
    | DeliveryOutcome.relayFailure relayReply =>
      Except.error (PyExc.wsgiResponse (buildHttpResponse relayReply))
    | DeliveryOutcome.accepted =>
      Except.error (PyExc.wsgiResponse
        (buildHttpResponse { code := "250", message := "2.6.0 Message accepted for delivery" }))

/-- The body of the handler's `try` block: validate, build the envelope,
attach extras, enqueue. The first exception short-circuits. -/
def pipeline (uriPattern : Option (String → Bool)) (o : Oracles) (e : Environ) :
    Except PyExc Unit :=
  match validateRequest uriPattern e with
  | Except.error ex => Except.error ex
  | Except.ok _ =>
    match getEnvelope o.parseBody e with
    | Except.error ex => Except.error ex
    | Except.ok env =>
      enqueueEnvelope (o.handoff (addEnvelopeExtras o.reverseAddress e env))

/-- Modelled from the spec: the observable side effects of `__call__` —
request/response logging (`slimta.logging`, not under `src/`), spawning the
PTR-lookup task, exception logging, and killing the PTR-lookup task with
`block=False`. -/
inductive Effect where
  | logRequest
  | spawnPtrLookup
  | logResponse (status : String)
  | logException
  | killPtrLookup (block : Bool)
deriving DecidableEq, Repr

/-- What `__call__` returns to the WSGI server: the started status line and
headers, the iterable body, and the ordered trace of side effects. -/
structure CallResult where
  status : String
  headers : List (String × String)
  body : List String
  trace : List Effect
deriving DecidableEq, Repr

/-- Embeds `WsgiEdge.__call__`: log the request, spawn the PTR lookup, run the
pipeline; a `WSGIResponse` exception becomes the started response (logged);
any other exception is logged and becomes a plain-text 500 whose body is
`'{0!s}\n'.format(exc)`; the `finally` block kills the PTR-lookup task with
`block=False` on every path. -/
def call (uriPattern : Option (String → Bool)) (o : Oracles) (e : Environ) : CallResult :=
  let pre : List Effect := [Effect.logRequest, Effect.spawnPtrLookup]
  match pipeline uriPattern o e with
  | Except.error (PyExc.wsgiResponse res) =>
    { status := res.status, headers := res.headers, body := res.data
      trace := pre ++ [Effect.logResponse res.status, Effect.killPtrLookup false] }
  | Except.error (PyExc.other desc) =>
    let msg := desc ++ "\n"
    { status := "500 Internal Server Error"
      headers := [("Content-Length", toString msg.length), ("Content-Type", "text/plain")]
      body := [msg]
      trace := pre ++ [Effect.logException, Effect.killPtrLookup false] }
  | Except.ok _ =>
    { status := "", headers := [], body := []
      trace := pre ++ [Effect.killPtrLookup false] }

/-! ### Helper lemmas -/

theorem buildHttpResponse_headersEq (r : Reply) :
    (buildHttpResponse r).headers = [xSmtpReplyHeader r] := by
  unfold buildHttpResponse
  split
  · rfl
  · split
    · rfl
    · split
      · rfl
      · rfl

theorem pyStartsWith_four_not_two (s : String) (h : pyStartsWith s "4" = true) :
    pyStartsWith s "2" = false := by
  obtain ⟨l⟩ := s
  cases l with
  | nil => exact absurd h (by decide)
  | cons c t =>
    replace h : ('4' == c && List.isPrefixOf [] t) = true := h
    simp only [Bool.and_eq_true, beq_iff_eq] at h
    show ('2' == c && List.isPrefixOf [] t) = false
    rw [← h.1]
    exact rfl

theorem pipeline_enqueue (uriPattern : Option (String → Bool)) (o : Oracles) (e : Environ)
    (env : Envelope)
    (hv : validateRequest uriPattern e = Except.ok ())
    (he : getEnvelope o.parseBody e = Except.ok env) :
    pipeline uriPattern o e =
      enqueueEnvelope (o.handoff (addEnvelopeExtras o.reverseAddress e env)) := by
  unfold pipeline
  rw [hv, he]

theorem enqueueEnvelope_congr (l1 l2 : List (List Nat × DeliveryOutcome))
    (hne : l1.head? ≠ none) (h : l1.head? = l2.head?) :
    enqueueEnvelope l1 = enqueueEnvelope l2 := by
  cases l1 with
  | nil => exact absurd rfl hne
  | cons a t1 =>
    cases l2 with
    | nil => simp at h
    | cons b t2 =>
      simp only [List.head?_cons, Option.some.injEq] at h
      rw [show enqueueEnvelope (a :: t1) = enqueueEnvelope (a :: t2) from rfl, h]

theorem getSender_error (e : Environ) (ex : PyExc) (h : getSender e = Except.error ex) :
    ∃ m, ex = PyExc.other m := by
  unfold getSender at h
  cases hb : b64decode (e.senderHeader.getD "") with
  | none =>
    rw [hb] at h
    exact ⟨_, (Except.error.injEq _ _).mp h.symm⟩
  | some bs => rw [hb] at h; cases h

theorem decodeAll_error (l : List String) (ex : PyExc) (h : decodeAll l = Except.error ex) :
    ∃ m, ex = PyExc.other m := by
  induction l with
  | nil => cases h
  | cons s rest ih =>
    unfold decodeAll at h
    cases hb : b64decode s with
    | none =>
      rw [hb] at h
      exact ⟨_, (Except.error.injEq _ _).mp h.symm⟩
    | some bs =>
      rw [hb] at h
      cases hd : decodeAll rest with
      | error ex2 =>
        rw [hd] at h
        obtain rfl : ex2 = ex := (Except.error.injEq _ _).mp h
        exact ih hd
      | ok bss => rw [hd] at h; cases h

theorem getRecipients_error (e : Environ) (ex : PyExc)
    (h : getRecipients e = Except.error ex) : ∃ m, ex = PyExc.other m := by
  unfold getRecipients at h
  cases hr : e.rcptHeader with
  | none => rw [hr] at h; cases h
  | some raw =>
    rw [hr] at h
    replace h : (if raw = "" then Except.ok [] else decodeAll (splitPattern raw)) =
      Except.error ex := h
    by_cases hraw : raw = ""
    · rw [if_pos hraw] at h; cases h
    · rw [if_neg hraw] at h; exact decodeAll_error _ _ h

/-! ### Concrete fixtures -/

/-- A body parser oracle that always succeeds. -/
def parseAnyBody : List Nat → Except String Unit := fun _ => Except.ok ()

/-- Oracles whose handoff reports a queue failure for the first recipient. -/
def oQueueFailure : Oracles :=
  { parseBody := parseAnyBody, handoff := fun _ => [([], DeliveryOutcome.queueFailure)] }

/-- Oracles whose handoff returns an empty per-recipient result list. -/
def oEmptyResults : Oracles :=
  { parseBody := parseAnyBody, handoff := fun _ => [] }

/-- Oracles whose handoff reports a relay failure with reply code 450. -/
def oRelay450 : Oracles :=
  { parseBody := parseAnyBody
    handoff := fun _ => [([], DeliveryOutcome.relayFailure { code := "450", message := "4.0.0 busy" })] }

/-- Oracles reporting acceptance for the first of two recipients. -/
def oAcceptedTwo : Oracles :=
  { parseBody := parseAnyBody
    handoff := fun _ => [([], DeliveryOutcome.accepted), ([], DeliveryOutcome.queueFailure)] }

/-- Oracles reporting acceptance for a single recipient. -/
def oAcceptedOne : Oracles :=
  { parseBody := parseAnyBody, handoff := fun _ => [([], DeliveryOutcome.accepted)] }

/-- An environ with a recipient header holding two base64 segments. -/
def eRcpt : Environ := { rcptHeader := some "QUJD, REVG" }

/-- An environ whose Content-Length header is not numeric. -/
def eBadLength : Environ := { contentLength := some "abc" }

/-- An environ with a numeric Content-Length of 3 and a five-byte stream. -/
def eLen3 : Environ := { contentLength := some "3", input := [10, 20, 30, 40, 50] }

/-! ### Claims -/

/-- C3: on every exit path of the handler — validation rejection, successful
delivery, delivery failure, or unhandled fault — the last effect before the
handler returns is the non-blocking kill of the reverse-DNS lookup task, so
no enrichment task outlives its request. -/
theorem C3_ptr_lookup_killed (uriPattern : Option (String → Bool)) (o : Oracles) (e : Environ) :
    (call uriPattern o e).trace.getLast? = some (Effect.killPtrLookup false) ∧
    Effect.spawnPtrLookup ∈ (call uriPattern o e).trace := by
  unfold call
  cases pipeline uriPattern o e with
  | error ex =>
    cases ex with
    | wsgiResponse res => exact ⟨rfl, by simp⟩
    | other desc => exact ⟨rfl, by simp⟩
  | ok u => exact ⟨rfl, by simp⟩

/-- C4: validation rejects with 404 when a configured URI pattern does not
match the path; otherwise with 405 (with an `Allow: POST` header) when the
uppercased method is not POST; otherwise with 415 when a content type is
present and differs from `message/rfc822`; an absent content type is treated
as the expected type and the request is valid. -/
theorem C4_validation (uriPattern : Option (String → Bool)) (e : Environ) :
    (matchesUri uriPattern e = false →
      validateRequest uriPattern e = Except.error (PyExc.wsgiResponse
        { status := "404 Not Found", headers := [], data := [] })) ∧
    (matchesUri uriPattern e = true → pyUpper e.requestMethod ≠ "POST" →
      validateRequest uriPattern e = Except.error (PyExc.wsgiResponse
        { status := "405 Method Not Allowed", headers := [("Allow", "POST")], data := [] })) ∧
    (matchesUri uriPattern e = true → pyUpper e.requestMethod = "POST" →
      ∀ ct, e.contentType = some ct → ct ≠ "message/rfc822" →
        validateRequest uriPattern e = Except.error (PyExc.wsgiResponse
          { status := "415 Unsupported Media Type", headers := [], data := [] })) ∧
    (matchesUri uriPattern e = true → pyUpper e.requestMethod = "POST" →
      (e.contentType = none ∨ e.contentType = some "message/rfc822") →
      validateRequest uriPattern e = Except.ok ()) := by
  refine ⟨fun hm => ?_, fun hm hmeth => ?_, fun hm hmeth ct hct hne => ?_, fun hm hmeth hct => ?_⟩
  · simp [validateRequest, hm]
  · simp [validateRequest, hm, hmeth]
  · simp [validateRequest, hm, hmeth, hct, hne]
  · rcases hct with h | h <;> simp [validateRequest, hm, hmeth, h]

/-- Witness for C4 at concrete requests exercising all four branches. -/
theorem C4_validation_witness :
    validateRequest (some (fun p => p == "/mail")) { pathInfo := some "/other" } =
      Except.error (PyExc.wsgiResponse
        { status := "404 Not Found", headers := [], data := [] }) ∧
    validateRequest none { requestMethod := "get" } =
      Except.error (PyExc.wsgiResponse
        { status := "405 Method Not Allowed", headers := [("Allow", "POST")], data := [] }) ∧
    validateRequest none { contentType := some "text/plain" } =
      Except.error (PyExc.wsgiResponse
        { status := "415 Unsupported Media Type", headers := [], data := [] }) ∧
    validateRequest none {} = Except.ok () := by
  refine ⟨(C4_validation _ _).1 (by decide), (C4_validation _ _).2.1 rfl (by decide),
    (C4_validation _ _).2.2.1 rfl (by decide) "text/plain" rfl (by decide),
    (C4_validation _ _).2.2.2 rfl (by decide) (Or.inl rfl)⟩

/-- C6: the recipient header value `QUJD, REVG` is split on a comma or
semicolon surrounded by optional whitespace, and each segment is
base64-decoded, yielding exactly the recipients `ABC`, `DEF` in order. -/
theorem C6_recipient_roundtrip :
    splitPattern "QUJD, REVG" = ["QUJD", "REVG"] ∧
    b64decode "QUJD" = some (asciiBytes "ABC") ∧
    b64decode "REVG" = some (asciiBytes "DEF") ∧
    getRecipients eRcpt = Except.ok [asciiBytes "ABC", asciiBytes "DEF"] :=
  ⟨rfl, rfl, rfl, rfl⟩

/-- C1 (counterexample): a request that passes validation and whose queue
handoff returns a QueueError first outcome is answered with status
`500 Internal Server Error`, not `503 Service Unavailable` as claimed, and
the diagnostic header's message is `5.6.0 Error queuing message`, not
`Error queuing message`. -/
theorem C1_counterexample :
    validateRequest none {} = Except.ok () ∧
    oQueueFailure.handoff { sender := [], recipients := [] } =
      [([], DeliveryOutcome.queueFailure)] ∧
    (call none oQueueFailure {}).status = "500 Internal Server Error" ∧
    (call none oQueueFailure {}).status ≠ "503 Service Unavailable" ∧
    (call none oQueueFailure {}).headers =
      [("X-Smtp-Reply", "550; message=\"5.6.0 Error queuing message\"")] :=
  ⟨rfl, rfl, rfl, by decide, rfl⟩

/-- C1 (amended): a request that passes validation and whose queue handoff
returns a QueueError as the first recipient outcome is answered with status
`500 Internal Server Error` and a diagnostic reply header with code `550`
and message `5.6.0 Error queuing message`. -/
theorem C1_queueFailure_response (uriPattern : Option (String → Bool)) (o : Oracles)
    (e : Environ) (env : Envelope) (rcpt : List Nat)
    (hv : validateRequest uriPattern e = Except.ok ())
    (he : getEnvelope o.parseBody e = Except.ok env)
    (hh : (o.handoff (addEnvelopeExtras o.reverseAddress e env)).head? =
      some (rcpt, DeliveryOutcome.queueFailure)) :
    (call uriPattern o e).status = "500 Internal Server Error" ∧
    (call uriPattern o e).headers =
      [xSmtpReplyHeader { code := "550", message := "5.6.0 Error queuing message" }] := by
  have hp := pipeline_enqueue uriPattern o e env hv he
  cases hres : o.handoff (addEnvelopeExtras o.reverseAddress e env) with
  | nil => rw [hres] at hh; cases hh
  | cons a t =>
    rw [hres] at hh hp
    simp only [List.head?_cons, Option.some.injEq] at hh
    subst hh
    replace hp : pipeline uriPattern o e = Except.error (PyExc.wsgiResponse
      (buildHttpResponse { code := "550", message := "5.6.0 Error queuing message" })) := hp
    unfold call
    rw [hp]
    exact ⟨rfl, rfl⟩

/-- Witness for the amended C1 at a concrete request. -/
theorem C1_witness :
    (call none oQueueFailure {}).status = "500 Internal Server Error" ∧
    (call none oQueueFailure {}).headers =
      [xSmtpReplyHeader { code := "550", message := "5.6.0 Error queuing message" }] :=
  C1_queueFailure_response none oQueueFailure {}
    { sender := [], recipients := [], body := some [] } [] rfl rfl rfl

/-- C2: when the first handoff outcome is a relay failure, the wire status is
determined by the relay reply code — a code starting with `2` gives 200 OK, a
code starting with `4` gives 503 Service Unavailable, the code `535` gives
401 Unauthorized, and any other code gives 500 Internal Server Error — and in
every case the response carries the diagnostic header encoding the relay's
own reply code and message. -/
theorem C2_relayFailure_mapping (uriPattern : Option (String → Bool)) (o : Oracles)
    (e : Environ) (env : Envelope) (rcpt : List Nat) (relayReply : Reply)
    (hv : validateRequest uriPattern e = Except.ok ())
    (he : getEnvelope o.parseBody e = Except.ok env)
    (hh : (o.handoff (addEnvelopeExtras o.reverseAddress e env)).head? =
      some (rcpt, DeliveryOutcome.relayFailure relayReply)) :
    (call uriPattern o e).headers = [xSmtpReplyHeader relayReply] ∧
    (pyStartsWith relayReply.code "2" = true → (call uriPattern o e).status = "200 OK") ∧
    (pyStartsWith relayReply.code "4" = true →
      (call uriPattern o e).status = "503 Service Unavailable") ∧
    (relayReply.code = "535" → (call uriPattern o e).status = "401 Unauthorized") ∧
    (pyStartsWith relayReply.code "2" = false → pyStartsWith relayReply.code "4" = false →
      relayReply.code ≠ "535" → (call uriPattern o e).status = "500 Internal Server Error") := by
  have hp := pipeline_enqueue uriPattern o e env hv he
  cases hres : o.handoff (addEnvelopeExtras o.reverseAddress e env) with
  | nil => rw [hres] at hh; cases hh
  | cons a t =>
    rw [hres] at hh hp
    simp only [List.head?_cons, Option.some.injEq] at hh
    subst hh
    replace hp : pipeline uriPattern o e =
      Except.error (PyExc.wsgiResponse (buildHttpResponse relayReply)) := hp
    unfold call
    rw [hp]
    refine ⟨buildHttpResponse_headersEq relayReply, fun h2 => ?_, fun h4 => ?_,
      fun h535 => ?_, fun h2 h4 h535 => ?_⟩
    · simp [buildHttpResponse, h2]
    · simp [buildHttpResponse, pyStartsWith_four_not_two _ h4, h4]
    · simp [buildHttpResponse, h535, (by decide : pyStartsWith "535" "2" = false),
        (by decide : pyStartsWith "535" "4" = false)]
    · simp [buildHttpResponse, h2, h4, h535]

/-- Witness for C2 at a relay failure with reply code 450. -/
theorem C2_witness :
    (call none oRelay450 {}).headers =
      [xSmtpReplyHeader { code := "450", message := "4.0.0 busy" }] ∧
    (call none oRelay450 {}).status = "503 Service Unavailable" := by
  have h := C2_relayFailure_mapping none oRelay450 {}
    { sender := [], recipients := [], body := some [] } []
    { code := "450", message := "4.0.0 busy" } rfl rfl rfl
  exact ⟨h.1, h.2.2.1 (by decide)⟩

/-- C5: the response depends only on the first entry of the per-recipient
handoff result list: two handoffs whose result lists are non-empty and share
the same first entry produce identical responses. -/
theorem C5_first_result_determines (uriPattern : Option (String → Bool)) (e : Environ)
    (o1 o2 : Oracles)
    (hpb : o1.parseBody = o2.parseBody) (hrev : o1.reverseAddress = o2.reverseAddress)
    (hh : ∀ env, (o1.handoff env).head? ≠ none ∧ (o1.handoff env).head? = (o2.handoff env).head?) :
    call uriPattern o1 e = call uriPattern o2 e := by
  have hpipe : pipeline uriPattern o1 e = pipeline uriPattern o2 e := by
    unfold pipeline
    rw [hpb, hrev]
    cases validateRequest uriPattern e with
    | error ex => rfl
    | ok u =>
      cases getEnvelope o2.parseBody e with
      | error ex => rfl
      | ok env => exact enqueueEnvelope_congr _ _ (hh _).1 (hh _).2
  unfold call
  rw [hpipe]

/-- Witness for C5: dropping everything after the first result entry leaves
the response unchanged. -/
theorem C5_witness : call none oAcceptedTwo {} = call none oAcceptedOne {} :=
  C5_first_result_determines none {} oAcceptedTwo oAcceptedOne rfl rfl
    (fun env => ⟨by simp [oAcceptedTwo], rfl⟩)

/-- C7 (counterexample): a request whose sender header is missing and whose
recipient header is missing can still fault during envelope construction — a
non-numeric Content-Length makes `int()` raise — so construction does not
succeed for every such request. -/
theorem C7_counterexample :
    eBadLength.senderHeader = none ∧ eBadLength.rcptHeader = none ∧
    getEnvelope parseAnyBody eBadLength =
      Except.error (PyExc.other "invalid literal for int() with base 10: 'abc'") :=
  ⟨rfl, rfl, rfl⟩

/-- C7 (amended): for every request whose sender header is empty or missing
and whose recipient header is missing, provided the Content-Length value
parses (or is absent) and the body parser succeeds, envelope construction
succeeds and produces an envelope with an empty sender and an empty
recipient list. -/
theorem C7_empty_headers (parseBody : List Nat → Except String Unit) (e : Environ) (n : Int)
    (hs : e.senderHeader = none ∨ e.senderHeader = some "")
    (hr : e.rcptHeader = none)
    (hn : contentLengthValue e = Except.ok n)
    (hp : parseBody (readInput e.input n) = Except.ok ()) :
    getEnvelope parseBody e = Except.ok
      { sender := [], recipients := [], body := some (readInput e.input n) } := by
  have hsend : getSender e = Except.ok [] := by
    unfold getSender
    rcases hs with h | h <;> rw [h] <;> exact rfl
  have hrcpt : getRecipients e = Except.ok [] := by
    unfold getRecipients
    rw [hr]
  simp only [getEnvelope, hsend, hrcpt, hn, hp]

/-- Witness for the amended C7 at a headerless request. -/
theorem C7_witness :
    getEnvelope parseAnyBody {} =
      Except.ok { sender := [], recipients := [], body := some [] } :=
  C7_empty_headers parseAnyBody {} 0 (Or.inl rfl) rfl rfl rfl

/-- C8 (counterexample): on the fault path, the response body is the fault's
textual description followed by a newline, not the bare description. -/
theorem C8_counterexample :
    pipeline none oEmptyResults eBadLength =
      Except.error (PyExc.other "invalid literal for int() with base 10: 'abc'") ∧
    (call none oEmptyResults eBadLength).status = "500 Internal Server Error" ∧
    (call none oEmptyResults eBadLength).body ≠
      ["invalid literal for int() with base 10: 'abc'"] ∧
    (call none oEmptyResults eBadLength).body =
      ["invalid literal for int() with base 10: 'abc'\n"] :=
  ⟨rfl, rfl, by decide, rfl⟩

/-- C8 (amended): every uncaught failure that is not a structured terminal
response yields a response with status 500 Internal Server Error, a
`Content-Type: text/plain` header, and a body equal to the failure's textual
description followed by a newline; the failure is recorded to the
operational log. -/
theorem C8_fault_response (uriPattern : Option (String → Bool)) (o : Oracles)
    (e : Environ) (desc : String)
    (h : pipeline uriPattern o e = Except.error (PyExc.other desc)) :
    (call uriPattern o e).status = "500 Internal Server Error" ∧
    ("Content-Type", "text/plain") ∈ (call uriPattern o e).headers ∧
    (call uriPattern o e).body = [desc ++ "\n"] ∧
    Effect.logException ∈ (call uriPattern o e).trace := by
  unfold call
  rw [h]
  exact ⟨rfl, by simp, rfl, by simp⟩

/-- Witness for the amended C8 at the non-numeric Content-Length fault. -/
theorem C8_witness :
    (call none oEmptyResults eBadLength).status = "500 Internal Server Error" ∧
    ("Content-Type", "text/plain") ∈ (call none oEmptyResults eBadLength).headers ∧
    (call none oEmptyResults eBadLength).body =
      ["invalid literal for int() with base 10: 'abc'\n"] ∧
    Effect.logException ∈ (call none oEmptyResults eBadLength).trace :=
  C8_fault_response none oEmptyResults eBadLength
    "invalid literal for int() with base 10: 'abc'" rfl

theorem getEnvelope_ok_body (parseBody : List Nat → Except String Unit) (e : Environ)
    (env : Envelope) (n : Int)
    (hcl : contentLengthValue e = Except.ok n)
    (henv : getEnvelope parseBody e = Except.ok env) :
    env.body = some (readInput e.input n) := by
  unfold getEnvelope at henv
  cases hsend : getSender e with
  | error ex => simp [hsend] at henv
  | ok sender =>
    simp only [hsend] at henv
    cases hrcpt : getRecipients e with
    | error ex => simp [hrcpt] at henv
    | ok recipients =>
      simp only [hrcpt, hcl] at henv
      cases hpb : parseBody (readInput e.input n) with
      | error m => simp [hpb] at henv
      | ok u =>
        simp only [hpb, Except.ok.injEq] at henv
        subst henv
        rfl

/-- C9: body extraction reads exactly Content-Length bytes from the input
stream — for a numeric header value the bytes handed to the parser are the
first Content-Length bytes of the stream; an absent header reads zero bytes;
a present but non-numeric header value faults the request. -/
theorem C9_body_extraction (e : Environ) (parseBody : List Nat → Except String Unit) :
    (∀ s n, e.contentLength = some s → pyInt s = some n → 0 ≤ n →
      ∀ env, getEnvelope parseBody e = Except.ok env →
        env.body = some (e.input.take n.toNat) ∧
        (n.toNat ≤ e.input.length → ∃ d, env.body = some d ∧ d.length = n.toNat)) ∧
    (e.contentLength = none →
      ∀ env, getEnvelope parseBody e = Except.ok env → env.body = some []) ∧
    (∀ s, e.contentLength = some s → pyInt s = none →
      ∃ m, getEnvelope parseBody e = Except.error (PyExc.other m)) := by
  refine ⟨fun s n hs hn hpos env henv => ?_, fun hs env henv => ?_, fun s hs hn => ?_⟩
  · have hcl : contentLengthValue e = Except.ok n := by
      simp only [contentLengthValue, hs, hn]
    have hbody := getEnvelope_ok_body parseBody e env n hcl henv
    have hread : readInput e.input n = e.input.take n.toNat := by
      unfold readInput
      rw [if_neg (by omega)]
    rw [hread] at hbody
    exact ⟨hbody, fun hle => ⟨_, hbody, by rw [List.length_take]; omega⟩⟩
  · have hcl : contentLengthValue e = Except.ok 0 := by
      simp only [contentLengthValue, hs]
    have hbody := getEnvelope_ok_body parseBody e env 0 hcl henv
    exact hbody.trans rfl
  · have hcl : contentLengthValue e = Except.error
        (PyExc.other ("invalid literal for int() with base 10: '" ++ s ++ "'")) := by
      simp only [contentLengthValue, hs, hn]
    unfold getEnvelope
    cases hsend : getSender e with
    | error ex =>
      obtain ⟨m, rfl⟩ := getSender_error e ex hsend
      exact ⟨m, by simp only [hsend]⟩
    | ok sender =>
      cases hrcpt : getRecipients e with
      | error ex =>
        obtain ⟨m, rfl⟩ := getRecipients_error e ex hrcpt
        exact ⟨m, by simp only [hsend, hrcpt]⟩
      | ok recipients =>
        exact ⟨"invalid literal for int() with base 10: '" ++ s ++ "'",
          by simp only [hsend, hrcpt, hcl]⟩

/-- Witness for C9 at concrete requests: Content-Length 3 reads the first
three of five stream bytes, an absent Content-Length reads zero bytes, and a
non-numeric Content-Length faults. -/
theorem C9_witness :
    (∃ env, getEnvelope parseAnyBody eLen3 = Except.ok env ∧
      env.body = some [10, 20, 30] ∧ ∃ d, env.body = some d ∧ d.length = 3) ∧
    (∃ env, getEnvelope parseAnyBody {} = Except.ok env ∧ env.body = some []) ∧
    (∃ m, getEnvelope parseAnyBody eBadLength = Except.error (PyExc.other m)) := by
  have h1 := (C9_body_extraction eLen3 parseAnyBody).1 "3" 3 rfl (by decide) (by decide)
    { sender := [], recipients := [], body := some [10, 20, 30] } rfl
  have h2 := (C9_body_extraction {} parseAnyBody).2.1 rfl
    { sender := [], recipients := [], body := some [] } rfl
  have h3 := (C9_body_extraction eBadLength parseAnyBody).2.2 "abc" rfl (by decide)
  exact ⟨⟨_, rfl, h1.1, h1.2 (by decide)⟩, ⟨_, rfl, h2⟩, h3⟩

/-- C10: a request that passes validation and envelope construction but whose
handoff returns an empty result list is not answered with a delivery-status
response: indexing the first result fails and the request takes the generic
fault path, yielding a 500 Internal Server Error with no diagnostic header. -/
theorem C10_empty_results (uriPattern : Option (String → Bool)) (o : Oracles)
    (e : Environ) (env : Envelope)
    (hv : validateRequest uriPattern e = Except.ok ())
    (he : getEnvelope o.parseBody e = Except.ok env)
    (hh : o.handoff (addEnvelopeExtras o.reverseAddress e env) = []) :
    (call uriPattern o e).status = "500 Internal Server Error" ∧
    (call uriPattern o e).headers.map Prod.fst = ["Content-Length", "Content-Type"] ∧
    (call uriPattern o e).body = ["list index out of range\n"] ∧
    Effect.logException ∈ (call uriPattern o e).trace := by
  have hp := pipeline_enqueue uriPattern o e env hv he
  rw [hh] at hp
  replace hp : pipeline uriPattern o e =
    Except.error (PyExc.other "list index out of range") := hp
  unfold call
  rw [hp]
  exact ⟨rfl, rfl, rfl, by simp⟩

/-- Witness for C10 at a concrete request whose handoff returns no results. -/
theorem C10_witness :
    (call none oEmptyResults {}).status = "500 Internal Server Error" ∧
    (call none oEmptyResults {}).headers.map Prod.fst = ["Content-Length", "Content-Type"] ∧
    (call none oEmptyResults {}).body = ["list index out of range\n"] ∧
    Effect.logException ∈ (call none oEmptyResults {}).trace :=
  C10_empty_results none oEmptyResults {}
    { sender := [], recipients := [], body := some [] } rfl rfl rfl

end SlimtaWsgi
